import Mathlib

/-!
Verification of the finger-state classifier in `src/project.ipynb`
(a MediaPipe/OpenCV finger-counting demo).

The code under scrutiny is `handDetector.fingersUp` together with the
per-frame aggregation in `main`.  The embedding mirrors the Python:

* `findPosition` builds `lmList` by appending `[id, cx, cy]` per landmark,
  with `cx, cy` integer pixel coordinates — modelled by `Lm` below;
* `fingersUp` reads `self.tipIds = [4, 8, 12, 16, 20]`, compares
  `lmList[4][1]` against `lmList[3][1]` for the thumb (direction chosen by
  `handType == "Right"`) and `lmList[t][2]` against `lmList[t-2][2]` for
  the other four fingertips `t ∈ 8, 12, 16, 20`, appending `1` or `0`;
* `main` sums `fingers.count(1)` over every detected hand whose
  `handType` is truthy, starting each frame from `totalFingers = 0`.

List indexing in the Python raises `IndexError` out of range; every claim
constrains the landmark list to hold all 21 entries, and the largest index
the code reads is 20, so the total accessor `List.getD` (default `lm0`,
never consulted on those inputs) is a faithful embedding on the claims'
domain.  The Python returns `1`/`0` flags; the spec reads them as
booleans via `1 ↔ true`.
-/

/-- One entry of the landmark list built by `handDetector.findPosition`:
the Python appends `[id, cx, cy]` where `cx = int(lm.x * w)` and
`cy = int(lm.y * h)` are integer pixel coordinates. -/
structure Lm where
  id : Int
  x : Int
  y : Int
deriving DecidableEq, Repr

/-- Default landmark handed to `List.getD`; on the 21-entry lists the
claims quantify over it is never consulted. -/
def lm0 : Lm := ⟨0, 0, 0⟩

/-- The part of the `handDetector` object state that `fingersUp` reads:
`self.tipIds`, set in `__init__` to `[4, 8, 12, 16, 20]`.  The remaining
constructor fields (`mode`, `maxHands`, `detectionCon`, `trackCon`) only
configure the external MediaPipe provider and are never read by the
classifier. -/
structure handDetector where
  tipIds : List Nat
deriving DecidableEq, Repr

/-- `handDetector()` as constructed in `main`. -/
def handDetector.new : handDetector := ⟨[4, 8, 12, 16, 20]⟩

/-- `handDetector.fingersUp(self, lmList, handType)` in state-passing
form.  `handType` is the value produced by `getHandType`: a string label
or `None`, so `Option String`; the Python test `handType == "Right"` is
`handType = some "Right"` (false for `none` and for every other string).
The method body only reads `lmList` and `self.tipIds` and assigns
neither, so the landmark list and the detector come back unchanged; the
first component is the returned `fingers` list of `1`/`0` flags, thumb
first, then the `for id in range(1, 5)` loop entries in order. -/
def handDetector.fingersUpM (d : handDetector) (lmList : List Lm)
    (handType : Option String) : List Nat × List Lm × handDetector :=
  let thumb : Nat :=
    if handType = some "Right" then
      if (lmList.getD (d.tipIds.getD 0 0) lm0).x <
          (lmList.getD (d.tipIds.getD 0 0 - 1) lm0).x then 1 else 0
    else
      if (lmList.getD (d.tipIds.getD 0 0) lm0).x >
          (lmList.getD (d.tipIds.getD 0 0 - 1) lm0).x then 1 else 0
  let fingers : List Nat :=
    thumb :: (List.range' 1 4).map (fun i =>
      if (lmList.getD (d.tipIds.getD i 0) lm0).y <
          (lmList.getD (d.tipIds.getD i 0 - 2) lm0).y then 1 else 0)
  (fingers, lmList, d)

/-- The classifier as `main` invokes it: on the detector built by
`handDetector()` (so `tipIds = [4, 8, 12, 16, 20]`), keeping the returned
finger list. -/
def fingersUp (lmList : List Lm) (handType : Option String) : List Nat :=
  (handDetector.new.fingersUpM lmList handType).1

/-- Python truthiness of the `handType` value `main` receives from
`getHandType` (a classification label string, or `None` when
`multi_handedness` is falsy): `if handType:` rejects `None` and the empty
string. -/
def pyTruthy : Option String → Bool
  | none => false
  | some s => s != ""

/-- Per-frame aggregation in `main`: `totalFingers = 0`, then for every
detected hand `(lmList, handType)` the guard `if handType:` and, when it
passes, `totalFingers += fingers.count(1)` with
`fingers = detector.fingersUp(lmList, handType)`. -/
def totalFingers (hands : List (List Lm × Option String)) : Nat :=
  hands.foldl
    (fun acc hand =>
      if pyTruthy hand.2 then acc + (fingersUp hand.1 hand.2).count 1 else acc)
    0

/-- Unfolding lemma: the exact list `fingersUp` returns, entry by entry
(indices `4, 3` on x for the thumb; `8, 6`, `12, 10`, `16, 14`, `20, 18`
on y for the other fingers). -/
theorem fingersUp_eq (l : List Lm) (ht : Option String) :
    fingersUp l ht =
      (if ht = some "Right" then
        if (l.getD 4 lm0).x < (l.getD 3 lm0).x then 1 else 0
      else
        if (l.getD 4 lm0).x > (l.getD 3 lm0).x then 1 else 0) ::
      [if (l.getD 8 lm0).y < (l.getD 6 lm0).y then 1 else 0,
       if (l.getD 12 lm0).y < (l.getD 10 lm0).y then 1 else 0,
       if (l.getD 16 lm0).y < (l.getD 14 lm0).y then 1 else 0,
       if (l.getD 20 lm0).y < (l.getD 18 lm0).y then 1 else 0] := rfl

/-- A `1`/`0` flag equals `1` exactly when its condition holds. -/
theorem flag_eq_one {p : Prop} [Decidable p] :
    (if p then (1 : Nat) else 0) = 1 ↔ p := by
  by_cases h : p <;> simp [h]

/-- A `1`/`0` flag equals `0` exactly when its condition fails. -/
theorem flag_eq_zero {p : Prop} [Decidable p] :
    (if p then (1 : Nat) else 0) = 0 ↔ ¬p := by
  by_cases h : p <;> simp [h]

/-- Claim C1: for a 21-landmark hand, the thumb entry of `fingersUp` is
`1` for handedness "Right" exactly when landmark 4's x is strictly below
landmark 3's x, and for handedness "Left" exactly when it is strictly
above. -/
theorem c1_thumb_rule (l : List Lm) (_h : l.length = 21) :
    ((fingersUp l (some "Right")).getD 0 0 = 1 ↔
      (l.getD 4 lm0).x < (l.getD 3 lm0).x) ∧
    ((fingersUp l (some "Left")).getD 0 0 = 1 ↔
      (l.getD 4 lm0).x > (l.getD 3 lm0).x) := by
  constructor
  · rw [fingersUp_eq]
    simp [flag_eq_one]
  · rw [fingersUp_eq]
    simp [flag_eq_one]

/-- All-zero 21-landmark list (every coordinate tied). -/
def zeros21 : List Lm := List.replicate 21 lm0

/-- Witness for C1 at the concrete 21-landmark list `zeros21`. -/
theorem c1_thumb_rule_witness :
    ((fingersUp zeros21 (some "Right")).getD 0 0 = 1 ↔
      (zeros21.getD 4 lm0).x < (zeros21.getD 3 lm0).x) ∧
    ((fingersUp zeros21 (some "Left")).getD 0 0 = 1 ↔
      (zeros21.getD 4 lm0).x > (zeros21.getD 3 lm0).x) :=
  c1_thumb_rule zeros21 rfl

/-- The spec's end-to-end example landmarks: landmark 3 has x = 250,
landmark 4 has x = 300, and the tip/reference y-coordinates are
8 ↦ 120, 6 ↦ 200, 12 ↦ 210, 10 ↦ 180, 16 ↦ 300, 14 ↦ 150, 20 ↦ 50,
18 ↦ 300; every unconstrained coordinate is 0. -/
def exampleLm : List Lm :=
  [⟨0, 0, 0⟩, ⟨1, 0, 0⟩, ⟨2, 0, 0⟩, ⟨3, 250, 0⟩, ⟨4, 300, 0⟩,
   ⟨5, 0, 0⟩, ⟨6, 0, 200⟩, ⟨7, 0, 0⟩, ⟨8, 0, 120⟩, ⟨9, 0, 0⟩,
   ⟨10, 0, 180⟩, ⟨11, 0, 0⟩, ⟨12, 0, 210⟩, ⟨13, 0, 0⟩, ⟨14, 0, 150⟩,
   ⟨15, 0, 0⟩, ⟨16, 0, 300⟩, ⟨17, 0, 0⟩, ⟨18, 0, 300⟩, ⟨19, 0, 0⟩,
   ⟨20, 0, 50⟩]

/-- Claim C2: for a 21-landmark hand and either valid handedness, each
non-thumb entry (positions 1–4, tips 8/12/16/20, references 6/10/14/18)
is `1` exactly when the tip's y is strictly below its reference's y. -/
theorem c2_nonthumb_rule (l : List Lm) (_h : l.length = 21)
    (ht : Option String) (_hv : ht = some "Left" ∨ ht = some "Right") :
    ((fingersUp l ht).getD 1 0 = 1 ↔ (l.getD 8 lm0).y < (l.getD 6 lm0).y) ∧
    ((fingersUp l ht).getD 2 0 = 1 ↔ (l.getD 12 lm0).y < (l.getD 10 lm0).y) ∧
    ((fingersUp l ht).getD 3 0 = 1 ↔ (l.getD 16 lm0).y < (l.getD 14 lm0).y) ∧
    ((fingersUp l ht).getD 4 0 = 1 ↔ (l.getD 20 lm0).y < (l.getD 18 lm0).y) := by
  rw [fingersUp_eq]
  refine ⟨?_, ?_, ?_, ?_⟩ <;> simp [flag_eq_one]

/-- Witness for C2 at the example landmarks with handedness "Right":
positions 1 and 4 come out `1`, positions 2 and 3 come out `0`. -/
theorem c2_nonthumb_rule_witness :
    ((fingersUp exampleLm (some "Right")).getD 1 0 = 1 ↔
      (exampleLm.getD 8 lm0).y < (exampleLm.getD 6 lm0).y) ∧
    ((fingersUp exampleLm (some "Right")).getD 2 0 = 1 ↔
      (exampleLm.getD 12 lm0).y < (exampleLm.getD 10 lm0).y) ∧
    ((fingersUp exampleLm (some "Right")).getD 3 0 = 1 ↔
      (exampleLm.getD 16 lm0).y < (exampleLm.getD 14 lm0).y) ∧
    ((fingersUp exampleLm (some "Right")).getD 4 0 = 1 ↔
      (exampleLm.getD 20 lm0).y < (exampleLm.getD 18 lm0).y) :=
  c2_nonthumb_rule exampleLm rfl (some "Right") (Or.inr rfl)

/-- Claim C5: for every finger, a tie between the compared coordinates
(thumb: x of landmarks 4 and 3, for any handedness value; others: y of
tip and reference) classifies the finger as not extended (`0`). -/
theorem c5_ties_not_extended (l : List Lm) (_h : l.length = 21)
    (ht : Option String) :
    ((l.getD 4 lm0).x = (l.getD 3 lm0).x → (fingersUp l ht).getD 0 0 = 0) ∧
    ((l.getD 8 lm0).y = (l.getD 6 lm0).y → (fingersUp l ht).getD 1 0 = 0) ∧
    ((l.getD 12 lm0).y = (l.getD 10 lm0).y → (fingersUp l ht).getD 2 0 = 0) ∧
    ((l.getD 16 lm0).y = (l.getD 14 lm0).y → (fingersUp l ht).getD 3 0 = 0) ∧
    ((l.getD 20 lm0).y = (l.getD 18 lm0).y → (fingersUp l ht).getD 4 0 = 0) := by
  rw [fingersUp_eq]
  refine ⟨?_, ?_, ?_, ?_, ?_⟩ <;> intro he <;>
    by_cases hr : ht = some "Right" <;>
    simp [hr] at he ⊢ <;> omega

/-- Witness for C5 at the all-zero landmark list (every comparison tied):
the thumb entry is `0` for handedness "Right". -/
theorem c5_ties_not_extended_witness :
    (fingersUp zeros21 (some "Right")).getD 0 0 = 0 :=
  (c5_ties_not_extended zeros21 rfl (some "Right")).1 rfl

/-- Claim C6: for every landmark list and every handedness value, the
returned vector has length exactly 5, its entries in the fixed order
[thumb, index, middle, ring, pinky]. -/
theorem c6_vector_shape (l : List Lm) (ht : Option String) :
    (fingersUp l ht).length = 5 ∧
    fingersUp l ht =
      [(if ht = some "Right" then
          if (l.getD 4 lm0).x < (l.getD 3 lm0).x then 1 else 0
        else
          if (l.getD 4 lm0).x > (l.getD 3 lm0).x then 1 else 0),
       if (l.getD 8 lm0).y < (l.getD 6 lm0).y then 1 else 0,
       if (l.getD 12 lm0).y < (l.getD 10 lm0).y then 1 else 0,
       if (l.getD 16 lm0).y < (l.getD 14 lm0).y then 1 else 0,
       if (l.getD 20 lm0).y < (l.getD 18 lm0).y then 1 else 0] :=
  ⟨rfl, fingersUp_eq l ht⟩

/-- Claim C3 counterexample: invoked with handedness `none` (unknown) on
the 21-landmark example list, `fingersUp` raises nothing and returns the
full 5-entry vector computed by the `else` (Left-rule) branch — the claim
that it raises an invalid-input error and never returns a guessed vector
is false. -/
theorem c3_counterexample :
    fingersUp exampleLm none = [1, 1, 0, 0, 1] ∧
    (fingersUp exampleLm none).length = 5 := by
  decide

/-- Claim C3 amended: for unknown/absent handedness `fingersUp` performs
no validation and raises no error; it returns a full 5-entry vector equal
to the Left-rule result.  The `if handType:` guard in `main` is what
skips such hands, so a hand with unknown handedness contributes 0 to the
frame aggregate without the classifier's result being counted. -/
theorem c3_unknown_handedness_fallback (l : List Lm) :
    (fingersUp l none).length = 5 ∧
    fingersUp l none = fingersUp l (some "Left") ∧
    totalFingers [(l, none)] = 0 := by
  refine ⟨rfl, ?_, rfl⟩
  rw [fingersUp_eq, fingersUp_eq]
  simp

/-- Claim C4 counterexample: on the spec's end-to-end example landmarks
with handedness "Right", the classifier does not return the claimed
vector `[1, 1, 0, 0, 1]`: thumb tip x = 300 is not strictly less than
reference x = 250, so the thumb entry is `0`. -/
theorem c4_counterexample :
    fingersUp exampleLm (some "Right") ≠ [1, 1, 0, 0, 1] := by
  decide

/-- Claim C4 amended: on the end-to-end example the classifier returns
`[0, 1, 0, 0, 1]` (thumb not extended, since 300 < 250 fails under the
Right-hand rule), contributing 2 — not 3 — to the aggregate count. -/
theorem c4_example_output :
    fingersUp exampleLm (some "Right") = [0, 1, 0, 0, 1] ∧
    (fingersUp exampleLm (some "Right")).count 1 = 2 ∧
    totalFingers [(exampleLm, some "Right")] = 2 := by
  decide

/-- The loop in `main` started from any accumulator: folding adds the
per-hand counts of guarded hands on top of the initial value. -/
theorem totalFingers_shift (hands : List (List Lm × Option String))
    (acc : Nat) :
    List.foldl
      (fun a hand =>
        if pyTruthy hand.2 then a + (fingersUp hand.1 hand.2).count 1 else a)
      acc hands = acc + totalFingers hands := by
  induction hands generalizing acc with
  | nil => simp [totalFingers]
  | cons hd tl ih =>
    rw [List.foldl_cons, ih]
    have h2 : totalFingers (hd :: tl) =
        (if pyTruthy hd.2 then (fingersUp hd.1 hd.2).count 1 else 0) +
          totalFingers tl := by
      simp only [totalFingers, List.foldl_cons]
      rw [ih, ih]
      by_cases hp : pyTruthy hd.2 <;> simp [hp]
    rw [h2]
    by_cases hp : pyTruthy hd.2 <;> simp [hp]
    omega

/-- `totalFingers` as a sum over the frame's hands, each contributing its
count of `1` entries when its handedness passes the truthiness guard and
0 otherwise. -/
theorem totalFingers_eq_sum (hands : List (List Lm × Option String)) :
    totalFingers hands =
      (hands.map (fun hand =>
        if pyTruthy hand.2 then (fingersUp hand.1 hand.2).count 1 else 0)).sum := by
  induction hands with
  | nil => rfl
  | cons hd tl ih =>
    show List.foldl _ _ _ = _
    rw [List.foldl_cons, totalFingers_shift, ih, List.map_cons, List.sum_cons]
    by_cases hp : pyTruthy hd.2 <;> simp [hp]

/-- Claim C7: when every detected hand carries a truthy handedness label,
the frame aggregate equals the sum over all hands of the number of `1`
entries in their finger-state vectors, and a frame with zero detected
hands yields aggregate 0 with no error. -/
theorem c7_frame_aggregate (hands : List (List Lm × Option String))
    (hall : ∀ hand ∈ hands, pyTruthy hand.2 = true) :
    totalFingers hands =
      (hands.map (fun hand => (fingersUp hand.1 hand.2).count 1)).sum ∧
    totalFingers [] = 0 := by
  refine ⟨?_, rfl⟩
  rw [totalFingers_eq_sum]
  congr 1
  apply List.map_congr_left
  intro hand hm
  rw [if_pos (hall hand hm)]

/-- A concrete two-hand frame. -/
def handsW : List (List Lm × Option String) :=
  [(exampleLm, some "Right"), (zeros21, some "Left")]

/-- Witness for C7 at the concrete frame `handsW`. -/
theorem c7_frame_aggregate_witness :
    (∀ hand ∈ handsW, pyTruthy hand.2 = true) ∧
    (totalFingers handsW =
      (handsW.map (fun hand => (fingersUp hand.1 hand.2).count 1)).sum ∧
    totalFingers [] = 0) :=
  ⟨by decide, c7_frame_aggregate handsW (by decide)⟩

/-- Claim C8: `fingersUp` is pure and deterministic — it hands back the
landmark list and the detector object unchanged, and invoking it again on
the state a first invocation left behind returns the same finger-state
vector. -/
theorem c8_pure_deterministic (d : handDetector) (l : List Lm)
    (ht : Option String) :
    (d.fingersUpM l ht).2.1 = l ∧
    (d.fingersUpM l ht).2.2 = d ∧
    ((d.fingersUpM l ht).2.2.fingersUpM (d.fingersUpM l ht).2.1 ht).1 =
      (d.fingersUpM l ht).1 :=
  ⟨rfl, rfl, rfl⟩

/-- Claim C9: for any handedness value other than `some "Right"` —
including `none` and mislabelled strings such as "left" — `fingersUp`
validates nothing, raises nothing, and returns the full 5-entry vector of
the Left-hand thumb rule (thumb `1` iff landmark 4's x strictly exceeds
landmark 3's x). -/
theorem c9_non_right_fallback (l : List Lm) (_h : 21 ≤ l.length)
    (ht : Option String) (hne : ht ≠ some "Right") :
    (fingersUp l ht).length = 5 ∧
    ((fingersUp l ht).getD 0 0 = 1 ↔ (l.getD 4 lm0).x > (l.getD 3 lm0).x) ∧
    fingersUp l ht = fingersUp l (some "Left") := by
  refine ⟨rfl, ?_, ?_⟩
  · rw [fingersUp_eq, if_neg hne]
    simp [flag_eq_one]
  · rw [fingersUp_eq, fingersUp_eq, if_neg hne]
    simp

/-- Witness for C9 at the example landmarks with handedness `none`. -/
theorem c9_non_right_fallback_witness :
    (fingersUp exampleLm none).length = 5 ∧
    ((fingersUp exampleLm none).getD 0 0 = 1 ↔
      (exampleLm.getD 4 lm0).x > (exampleLm.getD 3 lm0).x) ∧
    fingersUp exampleLm none = fingersUp exampleLm (some "Left") :=
  c9_non_right_fallback exampleLm (by decide) none (by decide)

/-- Claim C10: the classifier reads only the x-coordinates of landmarks 3
and 4 and the y-coordinates of landmarks 6, 8, 10, 12, 16, 14, 18 and 20;
two landmark lists of length at least 21 agreeing there yield identical
vectors for the same handedness. -/
theorem c10_reads_only_used_coords (l1 l2 : List Lm)
    (_h1 : 21 ≤ l1.length) (_h2 : 21 ≤ l2.length) (ht : Option String)
    (e3 : (l1.getD 3 lm0).x = (l2.getD 3 lm0).x)
    (e4 : (l1.getD 4 lm0).x = (l2.getD 4 lm0).x)
    (e6 : (l1.getD 6 lm0).y = (l2.getD 6 lm0).y)
    (e8 : (l1.getD 8 lm0).y = (l2.getD 8 lm0).y)
    (e10 : (l1.getD 10 lm0).y = (l2.getD 10 lm0).y)
    (e12 : (l1.getD 12 lm0).y = (l2.getD 12 lm0).y)
    (e14 : (l1.getD 14 lm0).y = (l2.getD 14 lm0).y)
    (e16 : (l1.getD 16 lm0).y = (l2.getD 16 lm0).y)
    (e18 : (l1.getD 18 lm0).y = (l2.getD 18 lm0).y)
    (e20 : (l1.getD 20 lm0).y = (l2.getD 20 lm0).y) :
    fingersUp l1 ht = fingersUp l2 ht := by
  rw [fingersUp_eq, fingersUp_eq, e3, e4, e6, e8, e10, e12, e14, e16, e18,
    e20]

/-- `zeros21` with entry 2 (which the spec's precondition lists as
required but the code never reads) replaced by a different landmark. -/
def zeros21b : List Lm := zeros21.set 2 ⟨2, 99, 99⟩

/-- Witness for C10: the two lists differ at entry 2 yet get the same
vector. -/
theorem c10_reads_only_used_coords_witness :
    zeros21 ≠ zeros21b ∧
    fingersUp zeros21 (some "Right") = fingersUp zeros21b (some "Right") :=
  ⟨by decide,
    c10_reads_only_used_coords zeros21 zeros21b (by decide) (by decide)
      (some "Right") (by decide) (by decide) (by decide) (by decide)
      (by decide) (by decide) (by decide) (by decide) (by decide)
      (by decide)⟩
